import Mathlib

/-!
# Formal model of the EFTM wastewater-quality dashboard core

A shallow embedding of the computational core of `src/watching.py`:

* `EFTMModel` / `EFTMModel.predict` — the fixed-weight linear ensemble
  combiner (lines 55-67 of the source).
* `month_sin`, …, `hour_cos` and `timeFeats` — the six cyclical time
  encodings and the `time_feats` dict (lines 163-170).
* `dictInsert` / `dictMerge` — the Python dict merge
  `pd.DataFrame([{**input_data, **time_feats}])` of line 174: each entry of
  the right dict is inserted into a copy of the left dict, overwriting in
  place on a key collision and appending otherwise, exactly the semantics
  of a Python dict union for dicts with unique keys.
* `alignFeatures` — the pandas column selection `input_df[feature_names]`
  of line 175: select the schema's columns in schema order, failing with a
  missing key when a requested column is absent (the `KeyError` caught and
  reported at lines 176-178).
* `runPredict` — the per-request prediction path of `main`
  (lines 173-186): align the merged mapping to the feature schema, run the
  four models on the aligned frame, and combine with the ensemble weights.
  The errors that the source catches and reports to the user via
  `st.error` + `st.stop` (a per-request abort, not a process crash) are
  modelled as `Except.error`.

Sensor readings and model predictions are modelled as exact rationals
where no trigonometry is involved (the Python floats' decimal literals are
exact in `ℚ`), and as reals where the time features' `sin`/`cos` appear.
The four models themselves are opaque pre-trained artifacts external to
the repository; they enter only as abstract functions from an aligned
frame to a scalar.
-/

namespace Watching

/-- The EFTM ensemble combiner: four fixed weights set at construction
time, with the default values of `EFTMModel.__init__` (line 56). -/
structure EFTMModel where
  w_cb : ℚ := 0.385412
  w_xgb : ℚ := 0.294103
  w_lgbm : ℚ := 0.211438
  w_ab : ℚ := 0.109047

/-- `EFTMModel.predict` (line 67): the weighted sum of the four model
outputs, on scalars (the UI always supplies scalars; `np.array` on a
scalar is the identity for this arithmetic). -/
def EFTMModel.predict (m : EFTMModel) (pred_cb pred_xgb pred_lgbm pred_ab : ℚ) : ℚ :=
  m.w_cb * pred_cb + m.w_xgb * pred_xgb + m.w_lgbm * pred_lgbm + m.w_ab * pred_ab

/-- The ensemble instance built in `main` (line 120): `EFTMModel()` with
all construction-time defaults. -/
def eftm_model : EFTMModel := {}

/-- Insertion of one key/value pair into a Python dict modelled as an
association list with unique keys: overwrite in place if the key is
present (Python keeps the original key position), append otherwise. -/
def dictInsert {α : Type} (k : String) (v : α) : List (String × α) → List (String × α)
  | [] => [(k, v)]
  | (a, b) :: t => if a = k then (k, v) :: t else (a, b) :: dictInsert k v t

/-- Python's `\x7b**a, **b\x7d` dict merge (line 174): insert every entry of `b`
into a copy of `a`, so `b`'s values win on key collisions. -/
def dictMerge {α : Type} (a b : List (String × α)) : List (String × α) :=
  b.foldl (fun acc p => dictInsert p.1 p.2 acc) a

/-- The pandas column selection `input_df[feature_names]` (line 175):
keep exactly the requested columns, in the requested order, and fail with
the missing column name (`KeyError`) when one is absent. Columns not
requested are silently dropped, as pandas does. -/
def alignFeatures {α : Type} (m : List (String × α)) : List String → Except String (List (String × α))
  | [] => .ok []
  | k :: rest =>
    match List.lookup k m with
    | none => .error k
    | some v =>
      match alignFeatures m rest with
      | .error e => .error e
      | .ok t => .ok ((k, v) :: t)

/-- The prediction path of `main` (lines 173-186): align the merged input
mapping to the feature schema, then run the four (opaque) models on the
aligned frame and combine with the ensemble. The `KeyError` branch that
the source catches and reports via `st.error`/`st.stop` is the
`Except.error` case. -/
def runPredict (model : EFTMModel)
    (cb_model xgb_model lgb_model ab_model : List (String × ℚ) → ℚ)
    (input_map : List (String × ℚ)) (feature_names : List String) : Except String ℚ :=
  match alignFeatures input_map feature_names with
  | .error e => .error e
  | .ok input_df =>
      .ok (model.predict (cb_model input_df) (xgb_model input_df)
        (lgb_model input_df) (ab_model input_df))

/-- `month_sin` (line 164): `np.sin(2 * np.pi * full_dt.month / 12)`. -/
noncomputable def month_sin (month : ℕ) : ℝ := Real.sin (2 * Real.pi * month / 12)

/-- `month_cos` (line 165): `np.cos(2 * np.pi * full_dt.month / 12)`. -/
noncomputable def month_cos (month : ℕ) : ℝ := Real.cos (2 * Real.pi * month / 12)

/-- `day_sin` (line 166): `np.sin(2 * np.pi * full_dt.day / 31)`. -/
noncomputable def day_sin (day : ℕ) : ℝ := Real.sin (2 * Real.pi * day / 31)

/-- `day_cos` (line 167): `np.cos(2 * np.pi * full_dt.day / 31)`. -/
noncomputable def day_cos (day : ℕ) : ℝ := Real.cos (2 * Real.pi * day / 31)

/-- `hour_sin` (line 168): `np.sin(2 * np.pi * full_dt.hour / 24)`. -/
noncomputable def hour_sin (hour : ℕ) : ℝ := Real.sin (2 * Real.pi * hour / 24)

/-- `hour_cos` (line 169): `np.cos(2 * np.pi * full_dt.hour / 24)`. -/
noncomputable def hour_cos (hour : ℕ) : ℝ := Real.cos (2 * Real.pi * hour / 24)

/-- The `time_feats` dict (lines 163-170), in source order. -/
noncomputable def timeFeats (month day hour : ℕ) : List (String × ℝ) :=
  [("month_sin", month_sin month), ("month_cos", month_cos month),
   ("day_sin", day_sin day), ("day_cos", day_cos day),
   ("hour_sin", hour_sin hour), ("hour_cos", hour_cos hour)]

/-- The merged mapping `\x7b**input_data, **time_feats\x7d` of line 174. -/
noncomputable def mergedMapping (input_data : List (String × ℝ)) (month day hour : ℕ) :
    List (String × ℝ) :=
  dictMerge input_data (timeFeats month day hour)

/-! ## Association-list lemmas -/

theorem lookup_cons_self {α : Type} (k : String) (b : α) (t : List (String × α)) :
    List.lookup k ((k, b) :: t) = some b := by
  simp [List.lookup]

theorem lookup_cons_ne {α : Type} (k a : String) (b : α) (t : List (String × α)) (h : k ≠ a) :
    List.lookup k ((a, b) :: t) = List.lookup k t := by
  rw [List.lookup, beq_eq_false_iff_ne.mpr h]

theorem lookup_dictInsert_self {α : Type} (m : List (String × α)) (k : String) (v : α) :
    List.lookup k (dictInsert k v m) = some v := by
  induction m with
  | nil => simp [dictInsert, lookup_cons_self]
  | cons hd tl ih =>
    obtain ⟨a, b⟩ := hd
    by_cases h : a = k
    · simp [dictInsert, h, lookup_cons_self]
    · rw [dictInsert, if_neg h, lookup_cons_ne _ _ _ _ (Ne.symm h), ih]

theorem lookup_dictInsert_ne {α : Type} (m : List (String × α)) (k k' : String) (v : α)
    (h : k ≠ k') : List.lookup k (dictInsert k' v m) = List.lookup k m := by
  induction m with
  | nil =>
    rw [dictInsert, lookup_cons_ne _ _ _ _ h]
  | cons hd tl ih =>
    obtain ⟨a, b⟩ := hd
    by_cases ha : a = k'
    · subst ha
      rw [dictInsert, if_pos rfl, lookup_cons_ne _ _ _ _ h]
      by_cases hk : k = a
      · exact absurd hk h
      · rw [lookup_cons_ne _ _ _ _ hk]
    · rw [dictInsert, if_neg ha]
      by_cases hk : k = a
      · subst hk
        rw [lookup_cons_self, lookup_cons_self]
      · rw [lookup_cons_ne _ _ _ _ hk, lookup_cons_ne _ _ _ _ hk, ih]

/-! ## Alignment lemmas -/

theorem alignFeatures_ok {α : Type} (m : List (String × α)) (schema : List String)
    (h : ∀ k ∈ schema, (List.lookup k m).isSome) :
    ∃ l, alignFeatures m schema = .ok l ∧ l.map Prod.fst = schema ∧
      ∀ p ∈ l, List.lookup p.1 m = some p.2 := by
  induction schema with
  | nil => exact ⟨[], rfl, rfl, by simp⟩
  | cons k rest ih =>
    obtain ⟨v, hv⟩ := Option.isSome_iff_exists.mp (h k (List.mem_cons_self k rest))
    obtain ⟨t, ht, hmap, hval⟩ := ih (fun k' hk' => h k' (List.mem_cons_of_mem _ hk'))
    refine ⟨(k, v) :: t, ?_, ?_, ?_⟩
    · rw [alignFeatures, hv, ht]
    · simp [hmap]
    · intro p hp
      rcases List.mem_cons.mp hp with hp | hp
      · subst hp; exact hv
      · exact hval p hp

theorem alignFeatures_congr {α : Type} (m m' : List (String × α)) (schema : List String)
    (h : ∀ k ∈ schema, List.lookup k m = List.lookup k m') :
    alignFeatures m schema = alignFeatures m' schema := by
  induction schema with
  | nil => rfl
  | cons k rest ih =>
    rw [alignFeatures, alignFeatures, h k (List.mem_cons_self k rest),
      ih (fun k' hk' => h k' (List.mem_cons_of_mem _ hk'))]

theorem alignFeatures_missing {α : Type} (m : List (String × α)) (schema : List String)
    (h : ∃ k ∈ schema, List.lookup k m = none) :
    ∃ e, alignFeatures m schema = .error e ∧ e ∈ schema ∧ List.lookup e m = none := by
  induction schema with
  | nil => simp at h
  | cons k rest ih =>
    cases hk : List.lookup k m with
    | none => exact ⟨k, by rw [alignFeatures, hk], List.mem_cons_self k rest, hk⟩
    | some v =>
      obtain ⟨k', hk', hnone⟩ := h
      rcases List.mem_cons.mp hk' with rfl | hmem
      · rw [hk] at hnone; exact absurd hnone (by simp)
      · obtain ⟨e, he, hemem, henone⟩ := ih ⟨k', hmem, hnone⟩
        exact ⟨e, by rw [alignFeatures, hk, he], List.mem_cons_of_mem _ hemem, henone⟩

/-- The merged mapping unfolded: the six time features are inserted into
the sensor mapping in source order (a plain unfolding of the fold). -/
theorem mergedMapping_eq (obs : List (String × ℝ)) (m d h : ℕ) :
    mergedMapping obs m d h =
      dictInsert "hour_cos" (hour_cos h) (dictInsert "hour_sin" (hour_sin h)
        (dictInsert "day_cos" (day_cos d) (dictInsert "day_sin" (day_sin d)
          (dictInsert "month_cos" (month_cos m) (dictInsert "month_sin" (month_sin m) obs))))) :=
  rfl

/-! ## Claims -/

/-- Claim C1: with the default construction-time weights, the Ensemble
Combiner returns exactly `0.385412*p_cb + 0.294103*p_xgb + 0.211438*p_lgbm
+ 0.109047*p_ab` for every four scalar inputs, hence in particular within
tolerance `1e-9`; the operation is a total function on numeric inputs. -/
theorem C1_ensemble_weighted_sum (p_cb p_xgb p_lgbm p_ab : ℚ) :
    eftm_model.predict p_cb p_xgb p_lgbm p_ab
        = 0.385412 * p_cb + 0.294103 * p_xgb + 0.211438 * p_lgbm + 0.109047 * p_ab ∧
      |eftm_model.predict p_cb p_xgb p_lgbm p_ab
        - (0.385412 * p_cb + 0.294103 * p_xgb + 0.211438 * p_lgbm + 0.109047 * p_ab)|
        ≤ 1 / 10 ^ 9 := by
  have h : eftm_model.predict p_cb p_xgb p_lgbm p_ab
      = 0.385412 * p_cb + 0.294103 * p_xgb + 0.211438 * p_lgbm + 0.109047 * p_ab := rfl
  refine ⟨h, ?_⟩
  rw [h, sub_self, abs_zero]
  norm_num

/-- Claim C2, counterexample: with stub model outputs `1, 2, 3, 4` and the
default weights, the ensemble result is not within `1e-6` of the value
`2.081903` stated in the specification (the true value is `2.044120`). -/
theorem C2_spec_value_refuted :
    ¬ (|eftm_model.predict 1 2 3 4 - 2.081903| ≤ 1 / 1000000) := by
  have h : eftm_model.predict 1 2 3 4 = 2.04412 := by
    show (0.385412 : ℚ) * 1 + 0.294103 * 2 + 0.211438 * 3 + 0.109047 * 4 = 2.04412
    norm_num
  rw [h]
  intro hle
  rw [abs_le] at hle
  norm_num at hle

/-- Claim C2, amended: with stub model outputs `1, 2, 3, 4` and the
default weights, the ensemble result equals `2.044120` exactly, hence in
particular within tolerance `1e-6`. -/
theorem C2_ensemble_stub_value :
    eftm_model.predict 1 2 3 4 = 2.04412 ∧
      |eftm_model.predict 1 2 3 4 - 2.04412| ≤ 1 / 1000000 := by
  have h : eftm_model.predict 1 2 3 4 = 2.04412 := by
    show (0.385412 : ℚ) * 1 + 0.294103 * 2 + 0.211438 * 3 + 0.109047 * 4 = 2.04412
    norm_num
  refine ⟨h, ?_⟩
  rw [h, sub_self, abs_zero]
  norm_num

/-- Claim C3, counterexample: a merged mapping whose name set strictly
contains the schema (here `{"flow", "extra"} ⊋ {"flow"}`) does NOT make the
prediction path fail: the extra field is silently dropped and a prediction
is produced. -/
theorem C3_extra_fields_not_rejected :
    runPredict eftm_model (fun _ => 1) (fun _ => 2) (fun _ => 3) (fun _ => 4)
      [("flow", 5), ("extra", 6)] ["flow"] = .ok 2.04412 := by
  have h : alignFeatures [("flow", (5:ℚ)), ("extra", 6)] ["flow"] = .ok [("flow", 5)] := rfl
  rw [runPredict, h]
  show Except.ok (eftm_model.predict 1 2 3 4) = _
  have h2 : eftm_model.predict 1 2 3 4 = 2.04412 := by
    show (0.385412 : ℚ) * 1 + 0.294103 * 2 + 0.211438 * 3 + 0.109047 * 4 = 2.04412
    norm_num
  rw [h2]

/-- Claim C3, amended: for every merged mapping whose name set strictly
contains the schema's names, the prediction path does not fail: the extra
fields are silently dropped and prediction proceeds on exactly the
schema's columns, in schema order. -/
theorem C3_extra_fields_silently_dropped
    (cb_model xgb_model lgb_model ab_model : List (String × ℚ) → ℚ)
    (merged : List (String × ℚ)) (feature_names : List String)
    (hsup : ∀ k ∈ feature_names, (List.lookup k merged).isSome)
    (_hextra : ∃ p ∈ merged, p.1 ∉ feature_names) :
    ∃ df, alignFeatures merged feature_names = .ok df ∧ df.map Prod.fst = feature_names ∧
      runPredict eftm_model cb_model xgb_model lgb_model ab_model merged feature_names
        = .ok (eftm_model.predict (cb_model df) (xgb_model df) (lgb_model df) (ab_model df)) := by
  obtain ⟨df, hok, hmap, _⟩ := alignFeatures_ok merged feature_names hsup
  exact ⟨df, hok, hmap, by rw [runPredict, hok]⟩

/-- Witness for the amended claim C3, at a concrete strict-superset
mapping. -/
theorem C3_extra_fields_silently_dropped_witness :
    ∃ df, alignFeatures [("flow", (5:ℚ)), ("extra", 6)] ["flow"] = .ok df ∧
      df.map Prod.fst = ["flow"] ∧
      runPredict eftm_model (fun _ => 1) (fun _ => 2) (fun _ => 3) (fun _ => 4)
        [("flow", 5), ("extra", 6)] ["flow"] = .ok (eftm_model.predict 1 2 3 4) :=
  C3_extra_fields_silently_dropped (fun _ => 1) (fun _ => 2) (fun _ => 3) (fun _ => 4)
    [("flow", 5), ("extra", 6)] ["flow"] (by decide) (by decide)

/-- Claim C4: if the schema references a feature name absent from the
merged mapping, the prediction path fails with an error naming an absent
field; the failure is a returned per-request error value, not a crash. -/
theorem C4_missing_feature_error
    (cb_model xgb_model lgb_model ab_model : List (String × ℚ) → ℚ)
    (merged : List (String × ℚ)) (feature_names : List String)
    (h : ∃ k ∈ feature_names, List.lookup k merged = none) :
    ∃ e, runPredict eftm_model cb_model xgb_model lgb_model ab_model merged feature_names
        = .error e ∧ e ∈ feature_names ∧ List.lookup e merged = none := by
  obtain ⟨e, he, hmem, hnone⟩ := alignFeatures_missing merged feature_names h
  exact ⟨e, by rw [runPredict, he], hmem, hnone⟩

/-- Witness for claim C4, at a concrete mapping missing the schema's only
field. -/
theorem C4_missing_feature_error_witness :
    ∃ e, runPredict eftm_model (fun _ => 1) (fun _ => 2) (fun _ => 3) (fun _ => 4)
        ([] : List (String × ℚ)) ["x"] = .error e ∧ e ∈ ["x"]
        ∧ List.lookup e ([] : List (String × ℚ)) = none :=
  C4_missing_feature_error (fun _ => 1) (fun _ => 2) (fun _ => 3) (fun _ => 4)
    [] ["x"] (by decide)

/-- Claim C5: when the input mapping contains at least the schema's names,
the aligned output's fields are in exactly the schema's order, and the
output depends only on the mapping's lookups, not on its insertion
order. -/
theorem C5_schema_order
    (merged merged2 : List (String × ℚ)) (feature_names : List String)
    (hsup : ∀ k ∈ feature_names, (List.lookup k merged).isSome)
    (hsame : ∀ k ∈ feature_names, List.lookup k merged = List.lookup k merged2) :
    ∃ df, alignFeatures merged feature_names = .ok df ∧ df.map Prod.fst = feature_names ∧
      alignFeatures merged2 feature_names = .ok df := by
  obtain ⟨df, hok, hmap, _⟩ := alignFeatures_ok merged feature_names hsup
  refine ⟨df, hok, hmap, ?_⟩
  rw [← alignFeatures_congr merged merged2 feature_names hsame, hok]

/-- Witness for claim C5: two insertion orders of the same two fields
align to the same schema-ordered output. -/
theorem C5_schema_order_witness :
    ∃ df, alignFeatures [("b", (2:ℚ)), ("a", 1)] ["a", "b"] = .ok df ∧
      df.map Prod.fst = ["a", "b"] ∧
      alignFeatures [("a", (1:ℚ)), ("b", 2)] ["a", "b"] = .ok df :=
  C5_schema_order [("b", 2), ("a", 1)] [("a", 1), ("b", 2)] ["a", "b"]
    (by decide) (by decide)

/-- Claim C6: in the merged mapping, each of the six time-derived feature
names resolves to the time feature's value, even when a sensor field of
the same name is present — the time features overwrite the sensor
fields. -/
theorem C6_time_feature_overwrites_sensor
    (input_data : List (String × ℝ)) (month day hour : ℕ) :
    List.lookup "month_sin" (mergedMapping input_data month day hour) = some (month_sin month) ∧
    List.lookup "month_cos" (mergedMapping input_data month day hour) = some (month_cos month) ∧
    List.lookup "day_sin" (mergedMapping input_data month day hour) = some (day_sin day) ∧
    List.lookup "day_cos" (mergedMapping input_data month day hour) = some (day_cos day) ∧
    List.lookup "hour_sin" (mergedMapping input_data month day hour) = some (hour_sin hour) ∧
    List.lookup "hour_cos" (mergedMapping input_data month day hour) = some (hour_cos hour) := by
  refine ⟨?_, ?_, ?_, ?_, ?_, ?_⟩
  · rw [mergedMapping_eq, lookup_dictInsert_ne _ _ _ _ (by decide),
      lookup_dictInsert_ne _ _ _ _ (by decide), lookup_dictInsert_ne _ _ _ _ (by decide),
      lookup_dictInsert_ne _ _ _ _ (by decide), lookup_dictInsert_ne _ _ _ _ (by decide),
      lookup_dictInsert_self]
  · rw [mergedMapping_eq, lookup_dictInsert_ne _ _ _ _ (by decide),
      lookup_dictInsert_ne _ _ _ _ (by decide), lookup_dictInsert_ne _ _ _ _ (by decide),
      lookup_dictInsert_ne _ _ _ _ (by decide), lookup_dictInsert_self]
  · rw [mergedMapping_eq, lookup_dictInsert_ne _ _ _ _ (by decide),
      lookup_dictInsert_ne _ _ _ _ (by decide), lookup_dictInsert_ne _ _ _ _ (by decide),
      lookup_dictInsert_self]
  · rw [mergedMapping_eq, lookup_dictInsert_ne _ _ _ _ (by decide),
      lookup_dictInsert_ne _ _ _ _ (by decide), lookup_dictInsert_self]
  · rw [mergedMapping_eq, lookup_dictInsert_ne _ _ _ _ (by decide), lookup_dictInsert_self]
  · rw [mergedMapping_eq, lookup_dictInsert_self]

/-- Claim C7: the Ensemble Combiner is linear — scaling all four inputs by
`k` scales the output by `k`, and it is additive across independent input
tuples (superposition). -/
theorem C7_ensemble_linear (k p_cb p_xgb p_lgbm p_ab q_cb q_xgb q_lgbm q_ab : ℚ) :
    eftm_model.predict (k * p_cb) (k * p_xgb) (k * p_lgbm) (k * p_ab)
        = k * eftm_model.predict p_cb p_xgb p_lgbm p_ab ∧
      eftm_model.predict (p_cb + q_cb) (p_xgb + q_xgb) (p_lgbm + q_lgbm) (p_ab + q_ab)
        = eftm_model.predict p_cb p_xgb p_lgbm p_ab
          + eftm_model.predict q_cb q_xgb q_lgbm q_ab := by
  constructor
  · simp only [EFTMModel.predict]
    ring
  · simp only [EFTMModel.predict]
    ring

/-- Claim C8: the cyclical time encoding is periodic — month `13` encodes
exactly as month `1` (period 12), and hour `24` exactly as hour `0`
(period 24). -/
theorem C8_time_encoding_periodic :
    month_sin 13 = month_sin 1 ∧ month_cos 13 = month_cos 1 ∧
      hour_sin 24 = hour_sin 0 ∧ hour_cos 24 = hour_cos 0 := by
  have hm : (2 * Real.pi * ((13 : ℕ) : ℝ) / 12)
      = 2 * Real.pi * ((1 : ℕ) : ℝ) / 12 + 2 * Real.pi := by
    push_cast
    ring
  have hh : (2 * Real.pi * ((24 : ℕ) : ℝ) / 24)
      = 2 * Real.pi * ((0 : ℕ) : ℝ) / 24 + 2 * Real.pi := by
    push_cast
    ring
  refine ⟨?_, ?_, ?_, ?_⟩
  · simp only [month_sin]
    rw [hm, Real.sin_add_two_pi]
  · simp only [month_cos]
    rw [hm, Real.cos_add_two_pi]
  · simp only [hour_sin]
    rw [hh, Real.sin_add_two_pi]
  · simp only [hour_cos]
    rw [hh, Real.cos_add_two_pi]

/-- Claim C9: the four default weights sum exactly to `1`, so the ensemble
output is a convex combination of the four predictions, lying between
their minimum and maximum. -/
theorem C9_weights_sum_one_convex :
    eftm_model.w_cb + eftm_model.w_xgb + eftm_model.w_lgbm + eftm_model.w_ab = 1 ∧
      ∀ p_cb p_xgb p_lgbm p_ab : ℚ,
        min (min p_cb p_xgb) (min p_lgbm p_ab) ≤ eftm_model.predict p_cb p_xgb p_lgbm p_ab ∧
          eftm_model.predict p_cb p_xgb p_lgbm p_ab
            ≤ max (max p_cb p_xgb) (max p_lgbm p_ab) := by
  constructor
  · show (0.385412 : ℚ) + 0.294103 + 0.211438 + 0.109047 = 1
    norm_num
  · intro p_cb p_xgb p_lgbm p_ab
    constructor
    · have h1 : min (min p_cb p_xgb) (min p_lgbm p_ab) ≤ p_cb :=
        le_trans (min_le_left _ _) (min_le_left _ _)
      have h2 : min (min p_cb p_xgb) (min p_lgbm p_ab) ≤ p_xgb :=
        le_trans (min_le_left _ _) (min_le_right _ _)
      have h3 : min (min p_cb p_xgb) (min p_lgbm p_ab) ≤ p_lgbm :=
        le_trans (min_le_right _ _) (min_le_left _ _)
      have h4 : min (min p_cb p_xgb) (min p_lgbm p_ab) ≤ p_ab :=
        le_trans (min_le_right _ _) (min_le_right _ _)
      show min (min p_cb p_xgb) (min p_lgbm p_ab)
        ≤ (0.385412 : ℚ) * p_cb + 0.294103 * p_xgb + 0.211438 * p_lgbm + 0.109047 * p_ab
      linarith
    · have h1 : p_cb ≤ max (max p_cb p_xgb) (max p_lgbm p_ab) :=
        le_trans (le_max_left _ _) (le_max_left _ _)
      have h2 : p_xgb ≤ max (max p_cb p_xgb) (max p_lgbm p_ab) :=
        le_trans (le_max_right _ _) (le_max_left _ _)
      have h3 : p_lgbm ≤ max (max p_cb p_xgb) (max p_lgbm p_ab) :=
        le_trans (le_max_left _ _) (le_max_right _ _)
      have h4 : p_ab ≤ max (max p_cb p_xgb) (max p_lgbm p_ab) :=
        le_trans (le_max_right _ _) (le_max_right _ _)
      show (0.385412 : ℚ) * p_cb + 0.294103 * p_xgb + 0.211438 * p_lgbm + 0.109047 * p_ab
        ≤ max (max p_cb p_xgb) (max p_lgbm p_ab)
      linarith

/-- Claim C10: for every timestamp (month, day, hour), each of the six
time-derived features lies in the closed interval `[-1, 1]`. -/
theorem C10_time_features_bounded (month day hour : ℕ) :
    (-1 ≤ month_sin month ∧ month_sin month ≤ 1) ∧
      (-1 ≤ month_cos month ∧ month_cos month ≤ 1) ∧
      (-1 ≤ day_sin day ∧ day_sin day ≤ 1) ∧
      (-1 ≤ day_cos day ∧ day_cos day ≤ 1) ∧
      (-1 ≤ hour_sin hour ∧ hour_sin hour ≤ 1) ∧
      (-1 ≤ hour_cos hour ∧ hour_cos hour ≤ 1) :=
  ⟨⟨Real.neg_one_le_sin _, Real.sin_le_one _⟩,
    ⟨Real.neg_one_le_cos _, Real.cos_le_one _⟩,
    ⟨Real.neg_one_le_sin _, Real.sin_le_one _⟩,
    ⟨Real.neg_one_le_cos _, Real.cos_le_one _⟩,
    ⟨Real.neg_one_le_sin _, Real.sin_le_one _⟩,
    ⟨Real.neg_one_le_cos _, Real.cos_le_one _⟩⟩

end Watching
